import Mathlib

/-!
Shallow embedding of the `lyapunov_attractors` search core
(`models.py`, `trajectory_simulator.py`, `lyapunov_calculator.py`,
`chaotic_system_finder.py`).

Modelling conventions:
* Python floats are modelled by an arbitrary `LinearOrderedField K`; theorems
  whose meaning depends on the semantics of `math.sqrt` / `math.log`
  instantiate `K := ℝ` with `Real.sqrt` / `Real.log`, while theorems about
  control flow and exact arithmetic are proved for every `K` (and can be
  evaluated at `K := ℚ`).  `math.sqrt` and `math.log` are passed in as
  function parameters named `sqrt'` and `log'`.
* Calls to `random.uniform(a, b)` are modelled by CPython's implementation
  `a + t * (b - a)`, where `t` is the underlying `random()` draw; the draws
  are injected as explicit `Nat → K` streams, one per sampling loop, so the
  functions are deterministic in their inputs.
* The float value `-inf` used as the "non-chaotic" sentinel exponent is
  modelled by `none : Option K`; a finite exponent `x` is `some x`.
* Python exceptions that the modelled claims exercise (`TypeError` from a
  wrong-arity call, `ZeroDivisionError`, `ValueError` from `min([])`) are
  modelled with `Except` / `Option`; `OverflowError` cannot occur in exact
  field arithmetic, and the `IndexError` paths of `compute_polynomial_terms`
  (hit only when a per-dimension coefficient slice is empty) are totalised
  with `List.getD`, which no claim exercises.
-/

namespace LyapunovAttractors

variable {K : Type} [LinearOrderedField K]

/-- Model of `models.py` `LyapConfig` (a namedtuple; construction performs no
validation).  The two step counts are kept as `Nat`; all thresholds and
distances are field elements. -/
structure LyapConfig (K : Type) where
  transient_skip_steps : Nat
  initial_distance : K
  renorm_steps : Nat
  convergence_threshold : K
  extreme_threshold : K
  lyapunov_threshold : K
deriving DecidableEq

/-- Model of `models.py` `DensityConstraints` (fields `MIN`, `MAX`). -/
structure DensityConstraints (K : Type) where
  MIN : K
  MAX : K
deriving DecidableEq

/-- Model of `models.py` `ChaoticSysFinderConfig` (a namedtuple; construction
performs no validation and stores the given fields unchanged). -/
structure ChaoticSysFinderConfig (K : Type) where
  dimensions : Int
  param_count : Int
  iterations : Int
  max_systems : Nat
  coefficient_limit : K
  max_attempts : Nat
  output_path : String
  density_constraints : DensityConstraints K
  lyap_config : LyapConfig K
deriving DecidableEq

/-- Default values of the `LyapConfig` namedtuple:
`[100, 1e-8, 10, 1e-10, 1e10, 0.05]`. -/
def LyapConfig.default (K : Type) [LinearOrderedField K] : LyapConfig K :=
  { transient_skip_steps := 100
    initial_distance := 1 / 10 ^ 8
    renorm_steps := 10
    convergence_threshold := 1 / 10 ^ 10
    extreme_threshold := 10 ^ 10
    lyapunov_threshold := 1 / 20 }

/-- Default values of `DensityConstraints`: `[-5, 5]`. -/
def DensityConstraints.default (K : Type) [LinearOrderedField K] :
    DensityConstraints K :=
  { MIN := -5, MAX := 5 }

/-- Default values of `ChaoticSysFinderConfig`:
`[3, 12, 2000, 10, 2.5, 9000, "./best_attractors", ...]`. -/
def ChaoticSysFinderConfig.default (K : Type) [LinearOrderedField K] :
    ChaoticSysFinderConfig K :=
  { dimensions := 3
    param_count := 12
    iterations := 2000
    max_systems := 10
    coefficient_limit := 5 / 2
    max_attempts := 9000
    output_path := "./best_attractors"
    density_constraints := DensityConstraints.default K
    lyap_config := LyapConfig.default K }

/-- Model of the namedtuple constructor `ChaoticSysFinderConfig(...)`: it is a
total function that stores every field value unchanged (no validation of any
kind happens in `models.py`). -/
def ChaoticSysFinderConfig.make (dimensions param_count iterations : Int)
    (max_systems : Nat) (coefficient_limit : K) (max_attempts : Nat)
    (output_path : String) (density_constraints : DensityConstraints K)
    (lyap_config : LyapConfig K) : ChaoticSysFinderConfig K :=
  { dimensions := dimensions
    param_count := param_count
    iterations := iterations
    max_systems := max_systems
    coefficient_limit := coefficient_limit
    max_attempts := max_attempts
    output_path := output_path
    density_constraints := density_constraints
    lyap_config := lyap_config }

/-- Sum of squares `sum(x * x for x in point)`, as written in the source. -/
def sumSq (point : List K) : K :=
  (point.map (fun x => x * x)).sum

/-- Magnitude `math.sqrt(sum(x * x for x in point))`; the square root is the
injected `sqrt'`. -/
def magnitude (sqrt' : K → K) (point : List K) : K :=
  sqrt' (sumSq point)

/-- CPython's `random.uniform(a, b)` returns `a + t * (b - a)` where `t` is
the raw `random()` draw in `[0, 1]`. -/
def uniformDraw (a b t : K) : K :=
  a + t * (b - a)

/-- State of `TrajectorySimulator` after `__init__` (trajectory_simulator.py).
Note that the source assigns `self.param_max = config.max_systems` — the
`coefficient_limit` config field is never read. -/
structure TrajectorySimulator (K : Type) where
  config : ChaoticSysFinderConfig K
  dimensions : Int
  iterations : Int
  param_max : K
  min_density : K
  max_density : K
  convergence_threshold : K
  extreme_threshold : K
  lyap_norm_dist : K
  lyap_renorm_steps : Nat
deriving DecidableEq

/-- Model of `TrajectorySimulator.__init__(self, config)`: copies the config
fields onto the instance.  `param_max` is set to `config.max_systems`,
faithfully reproducing line 51 of the source. -/
def TrajectorySimulator.init (config : ChaoticSysFinderConfig K) :
    TrajectorySimulator K :=
  { config := config
    dimensions := config.dimensions
    iterations := config.iterations
    param_max := (config.max_systems : K)
    min_density := config.density_constraints.MIN
    max_density := config.density_constraints.MAX
    convergence_threshold := config.lyap_config.convergence_threshold
    extreme_threshold := config.lyap_config.extreme_threshold
    lyap_norm_dist := config.lyap_config.initial_distance
    lyap_renorm_steps := config.lyap_config.renorm_steps }

/-- Model of `TrajectorySimulator.create_random_points`.  `pointDraw` and
`dirDraw` are the `random()` streams feeding the two sampling comprehensions.
The perturbed point is `p + d * lyap_norm_dist / magnitude` componentwise; a
zero-magnitude direction makes the source raise `ZeroDivisionError`, modelled
as `none`. -/
def TrajectorySimulator.create_random_points (sqrt' : K → K)
    (sim : TrajectorySimulator K) (pointDraw dirDraw : Nat → K) :
    Option (List K × List K) :=
  let point := (List.range sim.dimensions.toNat).map
    (fun i => uniformDraw (sim.min_density / 2) (sim.max_density / 2) (pointDraw i))
  let random_direction := (List.range sim.dimensions.toNat).map
    (fun i => uniformDraw (-1) 1 (dirDraw i))
  let mag := magnitude sqrt' random_direction
  if mag = 0 then none
  else some (point,
    point.zipWith (fun p d => p + d * sim.lyap_norm_dist / mag) random_direction)

/-- Model of `TrajectorySimulator.generate_polynomial_coefficients`.
`coeffDraw` is the `random()` stream.  The bound really is
`[-param_max / 2, param_max / 2]` with `param_max = config.max_systems`.
Dimension counts are taken through `Int.toNat`: for negative `dimensions`
both the source (`range` of a negative product) and the model produce the
empty list. -/
def TrajectorySimulator.generate_polynomial_coefficients
    (sim : TrajectorySimulator K) (coeffDraw : Nat → K) : List K :=
  let n := sim.dimensions.toNat
  let coeffs_per_dim := 1 + n + n * (n + 1) / 2
  let total_params := coeffs_per_dim * n
  (List.range total_params).map
    (fun i => uniformDraw (-sim.param_max / 2) (sim.param_max / 2) (coeffDraw i))

/-- Pairs produced by `itertools.combinations_with_replacement(range(n), 2)`:
`(i, j)` for `i` in `range(n)` and `j` in `range(i, n)`, in that order. -/
def cwr2 (n : Nat) : List (Nat × Nat) :=
  (List.range n).flatMap (fun i => ((List.range n).drop i).map (fun j => (i, j)))

/-- Per-term multipliers of `compute_polynomial_terms`, in consumption order:
the constant term contributes `0.1`, the `i`-th linear term
`point[i] * 0.5`, and the `(i, j)` quadratic term
`point[i] * point[j] * 0.25`. -/
def polyTermFactors (point : List K) (n : Nat) : List K :=
  (1 / 10 : K) ::
    ((List.range n).map (fun i => point.getD i 0 * (1 / 2)) ++
      (cwr2 n).map (fun ij => point.getD ij.1 0 * point.getD ij.2 0 * (1 / 4)))

/-- Model of `TrajectorySimulator.compute_polynomial_terms`.  The source walks
`dim_coeffs` sequentially, guarded by `current_idx < len(dim_coeffs)`, so each
available coefficient is multiplied by the matching term factor and the
results are summed; surplus coefficients (and surplus terms) are ignored,
which is exactly `zipWith` truncation.  `OverflowError → inf` cannot fire in
exact arithmetic, and the unguarded constant-term read raises `IndexError`
when `dim_coeffs` is empty in the source; here it contributes `0`. -/
def TrajectorySimulator.compute_polynomial_terms (sim : TrajectorySimulator K)
    (point dim_coeffs : List K) : K :=
  (dim_coeffs.zipWith (fun c t => c * t)
    (polyTermFactors point sim.dimensions.toNat)).sum

/-- Model of `TrajectorySimulator.normalize_point`: rescale the point to
magnitude `max_density` when its magnitude strictly exceeds `max_density`,
otherwise return it unchanged. -/
def TrajectorySimulator.normalize_point (sqrt' : K → K)
    (sim : TrajectorySimulator K) (point : List K) : List K :=
  let mag := magnitude sqrt' point
  if sim.max_density < mag then
    point.map (fun x => x * sim.max_density / mag)
  else point

/-- Model of `TrajectorySimulator.check_convergence`:
`magnitude > extreme_threshold or magnitude < convergence_threshold`,
with both comparisons strict, exactly as in the source. -/
def TrajectorySimulator.check_convergence (sqrt' : K → K)
    (sim : TrajectorySimulator K) (point : List K) : Bool :=
  let mag := magnitude sqrt' point
  decide (sim.extreme_threshold < mag) || decide (mag < sim.convergence_threshold)

/-- Model of `TrajectorySimulator.calculate_new_point`: one output coordinate
per dimension, each computed from the matching slice
`coefficients[dim * coeffs_per_dim : (dim + 1) * coeffs_per_dim]` where
`coeffs_per_dim = len(coefficients) // dimensions`, followed by
`normalize_point`. -/
def TrajectorySimulator.calculate_new_point (sqrt' : K → K)
    (sim : TrajectorySimulator K) (point coefficients : List K) : List K :=
  let coeffs_per_dim := coefficients.length / sim.dimensions.toNat
  let new_point := (List.range sim.dimensions.toNat).map (fun dim =>
    sim.compute_polynomial_terms point
      ((coefficients.drop (dim * coeffs_per_dim)).take coeffs_per_dim))
  sim.normalize_point sqrt' new_point

/-- One renormalization step of `TrajectorySimulator.simulate` (the body of
the `if iteration % self.lyap_renorm_steps == 0 and iteration > 0` block):
recompute the separation `new_perturbed - new_point`, and when its magnitude
is positive move the perturbed point to distance `lyap_norm_dist` from
`new_point` along the current separation direction. -/
def TrajectorySimulator.renormalize (sqrt' : K → K)
    (sim : TrajectorySimulator K) (new_point new_perturbed : List K) : List K :=
  let separation := new_perturbed.zipWith (fun p r => p - r) new_point
  let separation_dist := sqrt' (sumSq separation)
  if 0 < separation_dist then
    let scale := sim.lyap_norm_dist / separation_dist
    new_point.zipWith (fun r s => r + s * scale) separation
  else new_perturbed

/-- Main loop of `TrajectorySimulator.simulate`, one constructor case per
iteration of `for iteration in range(self.iterations)`.  `fuel` is the number
of remaining iterations and `iteration` the current loop index.  The result
is `(lyapunov, reference_traj, perturbed_traj)`; `none` models the float
`-inf` sentinel exponent, which is what every `return` of the source —
including the fall-through after the loop — produces. -/
def TrajectorySimulator.simulateLoop (sqrt' : K → K)
    (sim : TrajectorySimulator K) (coefficients : List K) :
    Nat → Nat → List K → List K → List (List K) → List (List K) →
    Option K × List (List K) × List (List K)
  | _, 0, _, _, ref_traj, pert_traj => (none, ref_traj, pert_traj)
  | iteration, fuel + 1, point, perturbed, ref_traj, pert_traj =>
    let new_point := sim.calculate_new_point sqrt' point coefficients
    if sim.check_convergence sqrt' new_point then (none, ref_traj, pert_traj)
    else
      let ref_traj' := ref_traj ++ [new_point]
      let new_perturbed := sim.calculate_new_point sqrt' perturbed coefficients
      if sim.check_convergence sqrt' new_perturbed then (none, ref_traj', pert_traj)
      else
        let new_perturbed' :=
          if iteration % sim.lyap_renorm_steps == 0 && decide (0 < iteration) then
            sim.renormalize sqrt' new_point new_perturbed
          else new_perturbed
        TrajectorySimulator.simulateLoop sqrt' sim coefficients (iteration + 1)
          fuel new_point new_perturbed' ref_traj' (pert_traj ++ [new_perturbed'])

/-- Model of `TrajectorySimulator.simulate`, additionally exposing the
`perturbed_traj` accumulator (a local variable of the source that is never
read after the loop).  The outer `Option` models the `ZeroDivisionError`
that `create_random_points` can raise. -/
def TrajectorySimulator.simulate_full (sqrt' : K → K)
    (sim : TrajectorySimulator K) (pointDraw dirDraw coeffDraw : Nat → K) :
    Option (Option K × List K × List (List K) × List (List K)) :=
  match sim.create_random_points sqrt' pointDraw dirDraw with
  | none => none
  | some (point, perturbed) =>
    let coefficients := sim.generate_polynomial_coefficients coeffDraw
    let r := sim.simulateLoop sqrt' coefficients 0 sim.iterations.toNat
      point perturbed [] []
    some (r.1, coefficients, r.2.1, r.2.2)

/-- Model of `TrajectorySimulator.simulate`'s actual return value
`(lyapunov, coefficients, reference_traj)`. -/
def TrajectorySimulator.simulate (sqrt' : K → K)
    (sim : TrajectorySimulator K) (pointDraw dirDraw coeffDraw : Nat → K) :
    Option (Option K × List K × List (List K)) :=
  match sim.simulate_full sqrt' pointDraw dirDraw coeffDraw with
  | none => none
  | some (lyap, coefficients, ref_traj, _) => some (lyap, coefficients, ref_traj)

/-- State of `LyapunovCalculator` after `__init__` (lyapunov_calculator.py). -/
structure LyapunovCalculator (K : Type) where
  lyap_skip_steps : Nat
  lyap_norm_dist : K
  lyap_renorm_steps : Nat
  extreme_threshold : K
deriving DecidableEq

/-- Model of `LyapunovCalculator.__init__(self, lyap_config)`. -/
def LyapunovCalculator.init (lyap_config : LyapConfig K) : LyapunovCalculator K :=
  { lyap_skip_steps := lyap_config.transient_skip_steps
    lyap_norm_dist := lyap_config.initial_distance
    lyap_renorm_steps := lyap_config.renorm_steps
    extreme_threshold := lyap_config.extreme_threshold }

/-- Euclidean separation between `reference_traj[i]` and `perturbed_traj[i]`:
`math.sqrt(sum((r - p) ** 2 for r, p in zip(ref_point, pert_point)))`. -/
def separationAt (sqrt' : K → K) (reference_traj perturbed_traj : List (List K))
    (i : Nat) : K :=
  sqrt' (sumSq ((reference_traj.getD i []).zipWith (fun r p => r - p)
    (perturbed_traj.getD i [])))

/-- Model of `LyapunovCalculator.calculate`, written as the source's loop: a
left fold over the index range `[start_idx, num_points)` accumulating
`(lyap_sum, valid_points)`, then `none` (the `-inf` sentinel) when no point
was valid, else `lyap_sum / (valid_points * lyap_renorm_steps)`. -/
def LyapunovCalculator.calculate (sqrt' log' : K → K)
    (calculator : LyapunovCalculator K)
    (reference_traj perturbed_traj : List (List K)) : Option K :=
  let num_points := reference_traj.length
  let start_idx := min calculator.lyap_skip_steps (num_points / 4)
  let step := fun (acc : K × Nat) (i : Nat) =>
    let separation := separationAt sqrt' reference_traj perturbed_traj i
    if 0 < separation ∧ separation < calculator.extreme_threshold then
      (acc.1 + log' (separation / calculator.lyap_norm_dist), acc.2 + 1)
    else acc
  let r := (List.range' start_idx (num_points - start_idx)).foldl step (0, 0)
  if r.2 = 0 then none
  else some (r.1 / ((r.2 * calculator.lyap_renorm_steps : Nat) : K))

/-- Specification-side restatement of `LyapunovEstimator.estimate`, following
the spec text of §4.4 sentence by sentence: take
`skip = min(transientSkipSteps, length/4)`, keep exactly the indices `i` of
`[skip, length)` whose separation `s_i` satisfies `0 < s_i < extremeThreshold`,
return the sentinel when none qualifies, and otherwise return
`(Σ ln(s_i / initialDistance)) / (validCount × renormSteps)`. -/
def LyapunovCalculator.calculateSpec (sqrt' log' : K → K)
    (calculator : LyapunovCalculator K)
    (reference_traj perturbed_traj : List (List K)) : Option K :=
  let n := reference_traj.length
  let skip := min calculator.lyap_skip_steps (n / 4)
  let sep := fun i => separationAt sqrt' reference_traj perturbed_traj i
  let valid := (List.range' skip (n - skip)).filter
    (fun i => decide (0 < sep i) && decide (sep i < calculator.extreme_threshold))
  if valid = [] then none
  else some ((valid.map (fun i => log' (sep i / calculator.lyap_norm_dist))).sum /
    ((valid.length * calculator.lyap_renorm_steps : Nat) : K))

/-- Model of the `AttractorSystem` dataclass (attractor_system.py). -/
structure AttractorSystem (K : Type) where
  dimensions : Int
  param_count : Int
  iterations : Int
  coefficients : List K
  lyapunov : K
  points : List (List K)
  timestamp : String
deriving DecidableEq

/-- Model of Python's builtin `min` on a list: `none` models the `ValueError`
raised on an empty argument. -/
def listMin : List K → Option K
  | [] => none
  | x :: xs => some (xs.foldl min x)

/-- Mutable state of `ChaoticSystemFinder` relevant to the selection policy:
the configuration and the `best_systems` list.  The storage manager and
visualizer collaborators perform I/O only and carry no policy state. -/
structure ChaoticSystemFinder (K : Type) where
  config : ChaoticSysFinderConfig K
  best_systems : List (AttractorSystem K)
deriving DecidableEq

/-- Model of `ChaoticSystemFinder.is_system_worthy`.  The three returns of
the source in order: `False` when the exponent is strictly below the
threshold, `True` when fewer than `max_systems` systems are stored, and
otherwise the comparison with `min(system.lyapunov for system in
self.best_systems)`; `none` models the `ValueError` that `min` raises on an
empty sequence (reachable only when `max_systems = 0`). -/
def ChaoticSystemFinder.is_system_worthy (f : ChaoticSystemFinder K)
    (lyapunov : K) : Option Bool :=
  if lyapunov < f.config.lyap_config.lyapunov_threshold then some false
  else if f.best_systems.length < f.config.max_systems then some true
  else
    match listMin (f.best_systems.map (fun system => system.lyapunov)) with
    | none => none
    | some m => some (decide (m < lyapunov))

/-- Descending-by-exponent comparison used to model
`self.best_systems.sort(key=lambda x: x.lyapunov, reverse=True)`. -/
def lyapGE (a b : AttractorSystem K) : Prop :=
  b.lyapunov ≤ a.lyapunov

instance : DecidableRel (lyapGE (K := K)) :=
  fun a b => inferInstanceAs (Decidable (b.lyapunov ≤ a.lyapunov))

instance : IsTotal (AttractorSystem K) lyapGE :=
  ⟨fun a b => le_total b.lyapunov a.lyapunov⟩

instance : IsTrans (AttractorSystem K) lyapGE :=
  ⟨fun _ _ _ hab hbc => le_trans hbc hab⟩

/-- Stable sort of `best_systems` by exponent descending, modelling the
`list.sort(key=..., reverse=True)` call (CPython's sort is also stable). -/
def sortByLyapunovDesc (l : List (AttractorSystem K)) :
    List (AttractorSystem K) :=
  List.insertionSort lyapGE l

/-- Candidate record built by `add_system`'s `AttractorSystem(...)` call:
the config's dimensions, parameter count and iterations, the given
coefficients, exponent and trajectory, and the injected timestamp. -/
def ChaoticSystemFinder.newCandidate (f : ChaoticSystemFinder K)
    (coefficients : List K) (lyapunov : K) (points : List (List K))
    (timestamp : String) : AttractorSystem K :=
  { dimensions := f.config.dimensions
    param_count := f.config.param_count
    iterations := f.config.iterations
    coefficients := coefficients
    lyapunov := lyapunov
    points := points
    timestamp := timestamp }

/-- Model of `ChaoticSystemFinder.add_system`.  The fresh timestamp produced
by `datetime.now()` is injected as a parameter; the `save_systems` and
`plot_system` collaborator calls are I/O and carry no selector state.
`none` propagates the `ValueError` of `is_system_worthy`. -/
def ChaoticSystemFinder.add_system (f : ChaoticSystemFinder K)
    (coefficients : List K) (lyapunov : K) (points : List (List K))
    (timestamp : String) : Option (ChaoticSystemFinder K) :=
  match f.is_system_worthy lyapunov with
  | none => none
  | some false => some f
  | some true =>
    let new_system := f.newCandidate coefficients lyapunov points timestamp
    let sorted := sortByLyapunovDesc (f.best_systems ++ [new_system])
    let best := if f.config.max_systems < sorted.length then sorted.dropLast
      else sorted
    some { f with best_systems := best }

/-- Runtime values that appear as positional arguments at the constructor
call sites modelled here.  `pyNone` is Python's `None`. -/
inductive PyVal (K : Type) where
  | pyNone : PyVal K
  | config : ChaoticSysFinderConfig K → PyVal K
  | lyapCalc : LyapunovCalculator K → PyVal K

/-- Errors surfaced by the modelled constructor calls. -/
inductive PyError where
  | typeError
deriving DecidableEq

/-- Model of the call `TrajectorySimulator(args...)`.  CPython checks the
positional-argument count against `__init__(self, config)` — exactly one
positional argument besides `self` — and raises `TypeError` on a mismatch
before the body runs.  A single argument of the wrong runtime type would be
accepted by the call itself (and only fail later on attribute access); no
call site modelled here passes one. -/
def TrajectorySimulator.call (args : List (PyVal K)) :
    Except PyError (TrajectorySimulator K) :=
  match args with
  | [PyVal.config c] => Except.ok (TrajectorySimulator.init c)
  | [PyVal.pyNone] => Except.ok (TrajectorySimulator.init (ChaoticSysFinderConfig.default K))
  | _ => Except.error PyError.typeError

/-- Model of `ChaoticSystemFinder.__init__(self, config=None)` up to the
point where it constructs its collaborators, in source order: the
`StorageManager` and `LyapunovCalculator` constructions succeed (the former
only touches the filesystem), and then line 44 calls
`TrajectorySimulator(config, self.lyap_calculator)` — two positional
arguments, with the raw `config` parameter, which may be `None`.  The
`load_systems` call on lines 46–47 comes after this call.

Modelling note: for a `None` single argument `TrajectorySimulator.call`
would not be faithful (see its docstring), but this call site always passes
two arguments. -/
def ChaoticSystemFinder.new (configOpt : Option (ChaoticSysFinderConfig K)) :
    Except PyError (ChaoticSystemFinder K) := do
  let config := configOpt.getD (ChaoticSysFinderConfig.default K)
  let lyap_calculator := LyapunovCalculator.init config.lyap_config
  let _simulator ← TrajectorySimulator.call
    [match configOpt with
     | some c => PyVal.config c
     | none => PyVal.pyNone,
     PyVal.lyapCalc lyap_calculator]
  return { config := config, best_systems := [] }

/-- Modelled from the spec (§3 and §7): a configuration is valid when
dimensions and iterations are positive, the density bound satisfies
`min < max`, and the thresholds are positive.  The source has no counterpart
of this predicate — `models.py` validates nothing. -/
def validConfig (c : ChaoticSysFinderConfig K) : Prop :=
  0 < c.dimensions ∧ 0 < c.iterations ∧
  c.density_constraints.MIN < c.density_constraints.MAX ∧
  0 < c.lyap_config.convergence_threshold ∧
  0 < c.lyap_config.extreme_threshold ∧
  0 < c.lyap_config.lyapunov_threshold

instance (c : ChaoticSysFinderConfig ℚ) : Decidable (validConfig c) := by
  unfold validConfig; infer_instance

/-- Invariant of the `best_systems` list stated by the spec (§3 BestSet):
at most `max_systems` members, sorted by exponent descending, and every
member's exponent at least `lyapunov_threshold`. -/
def BestSetInv (f : ChaoticSystemFinder K) : Prop :=
  f.best_systems.length ≤ f.config.max_systems ∧
  List.Sorted lyapGE f.best_systems ∧
  ∀ s ∈ f.best_systems, f.config.lyap_config.lyapunov_threshold ≤ s.lyapunov

instance (f : ChaoticSystemFinder ℚ) : Decidable (BestSetInv f) := by
  unfold BestSetInv List.Sorted lyapGE; infer_instance

/-- Configuration with invalid fields in the sense of `validConfig`:
`dimensions = -1`, `iterations = 0`, density `min = 5 ≥ max = -5`, and
non-positive thresholds. -/
def badConfig : ChaoticSysFinderConfig ℚ :=
  ChaoticSysFinderConfig.make (-1) 12 0 10 (5 / 2) 9000 "./best_attractors"
    { MIN := 5, MAX := -5 }
    { transient_skip_steps := 100
      initial_distance := 1 / 10 ^ 8
      renorm_steps := 10
      convergence_threshold := 0
      extreme_threshold := 0
      lyapunov_threshold := 0 }

/-- Simulator built from the default configuration (`dimensions = 3`,
`max_systems = 10`, `coefficient_limit = 2.5`), over `ℚ`. -/
def defaultSim : TrajectorySimulator ℚ :=
  TrajectorySimulator.init (ChaoticSysFinderConfig.default ℚ)

/-- Configuration for the concrete completed-run demonstration: one
dimension, one iteration, `renorm_steps = 1`, `initial_distance = 1`,
`convergence_threshold = 0` (so no magnitude is below it), a huge
`extreme_threshold`, and `max_systems = 4` (which is what the coefficient
bound actually reads). -/
def c1Config : ChaoticSysFinderConfig ℚ :=
  ChaoticSysFinderConfig.make 1 2 1 4 (5 / 2) 100 "./best_attractors"
    { MIN := -100, MAX := 100 }
    { transient_skip_steps := 0
      initial_distance := 1
      renorm_steps := 1
      convergence_threshold := 0
      extreme_threshold := 10 ^ 10
      lyapunov_threshold := 1 / 20 }

/-- Simulator for the completed-run demonstration. -/
def c1Sim : TrajectorySimulator ℚ :=
  TrajectorySimulator.init c1Config

/-- Calculator built from the same configuration as `c1Sim`. -/
def c1Calc : LyapunovCalculator ℚ :=
  LyapunovCalculator.init c1Config.lyap_config

/-- Real-valued configuration with `convergence_threshold = 1` and
`extreme_threshold = 2`, used to probe the terminality boundary. -/
noncomputable def c5Config : ChaoticSysFinderConfig ℝ :=
  ChaoticSysFinderConfig.make 2 12 2000 10 (5 / 2) 9000 "./best_attractors"
    { MIN := -5, MAX := 5 }
    { transient_skip_steps := 100
      initial_distance := 1 / 10 ^ 8
      renorm_steps := 10
      convergence_threshold := 1
      extreme_threshold := 2
      lyapunov_threshold := 1 / 20 }

/-- Simulator over `ℝ` for the terminality-boundary theorems. -/
noncomputable def c5Sim : TrajectorySimulator ℝ :=
  TrajectorySimulator.init c5Config

/-- Finder state matching the spec's admission-boundary example:
`max_systems = 2`, `lyapunov_threshold = 0.05`, stored exponents
`[0.5, 0.3]`. -/
def exampleFinder : ChaoticSystemFinder ℚ :=
  { config := ChaoticSysFinderConfig.make 3 12 2000 2 (5 / 2) 9000
      "./best_attractors" (DensityConstraints.default ℚ) (LyapConfig.default ℚ)
    best_systems :=
      [ { dimensions := 3, param_count := 12, iterations := 2000
          coefficients := [], lyapunov := 1 / 2, points := [], timestamp := "a" }
      , { dimensions := 3, param_count := 12, iterations := 2000
          coefficients := [], lyapunov := 3 / 10, points := [], timestamp := "b" } ] }

/-- Calculator over `ℚ` built from the default `LyapConfig`. -/
def exampleCalc : LyapunovCalculator ℚ :=
  LyapunovCalculator.init (LyapConfig.default ℚ)

/-- C2: for every configuration argument, including the `None` default,
constructing `ChaoticSystemFinder` raises `TypeError` before any search can
start: line 44 of chaotic_system_finder.py calls `TrajectorySimulator` with
two positional arguments (the config and the Lyapunov calculator) while
`TrajectorySimulator.__init__` accepts only the config. -/
theorem chaotic_system_finder_init_raises_type_error
    (configOpt : Option (ChaoticSysFinderConfig K)) :
    ChaoticSystemFinder.new configOpt = Except.error PyError.typeError := by
  cases configOpt <;> rfl

/-- C4 counterexample: the configuration constructor is a total function.
Applied to the invalid inputs of `badConfig` — negative dimensions, zero
iterations, density `MIN = 5 ≥ MAX = -5`, non-positive thresholds — it
returns a constructed value holding all of them unchanged, instead of
failing fast with a configuration error as the claim states. -/
theorem config_invalid_inputs_accepted :
    ¬ validConfig badConfig ∧ badConfig.dimensions = -1 ∧
      badConfig.iterations = 0 ∧ badConfig.density_constraints.MIN = 5 ∧
      badConfig.density_constraints.MAX = -5 ∧
      badConfig.lyap_config.convergence_threshold = 0 ∧
      badConfig.lyap_config.extreme_threshold = 0 := by
  decide

/-- C4 amended: constructing a configuration value never fails and never
coerces — even when the supplied fields form an invalid configuration in the
spec's sense, the namedtuple constructor returns a value carrying exactly the
supplied fields. -/
theorem config_construction_total (d pc it : Int) (ms : Nat) (cl : K)
    (ma : Nat) (op : String) (dc : DensityConstraints K) (lc : LyapConfig K)
    (hbad : ¬ validConfig (ChaoticSysFinderConfig.make d pc it ms cl ma op dc lc)) :
    ChaoticSysFinderConfig.make d pc it ms cl ma op dc lc =
      { dimensions := d, param_count := pc, iterations := it
        max_systems := ms, coefficient_limit := cl, max_attempts := ma
        output_path := op, density_constraints := dc, lyap_config := lc } :=
  rfl

/-- Witness for `config_construction_total` at the invalid inputs of
`badConfig`. -/
theorem config_construction_total_witness :
    badConfig =
      { dimensions := -1, param_count := 12, iterations := 0
        max_systems := 10, coefficient_limit := 5 / 2, max_attempts := 9000
        output_path := "./best_attractors"
        density_constraints := { MIN := 5, MAX := -5 }
        lyap_config :=
          { transient_skip_steps := 100, initial_distance := 1 / 10 ^ 8
            renorm_steps := 10, convergence_threshold := 0
            extreme_threshold := 0, lyapunov_threshold := 0 } } :=
  config_construction_total (-1) 12 0 10 (5 / 2 : ℚ) 9000 "./best_attractors"
    { MIN := 5, MAX := -5 }
    { transient_skip_steps := 100, initial_distance := 1 / 10 ^ 8
      renorm_steps := 10, convergence_threshold := 0
      extreme_threshold := 0, lyapunov_threshold := 0 } (by decide)

/-- C3: with the default configuration (`dimensions = 3`, `max_systems = 10`,
`coefficient_limit = 2.5`) and every raw draw equal to `1`,
`generate_polynomial_coefficients` returns exactly
`coeffsPerDim × dimensions = 10 × 3 = 30` values — the count from the
claim — but every value equals `max_systems / 2 = 5`, which exceeds
`coefficient_limit / 2 = 1.25`: the sampling bound is built from
`max_systems`, not from `coefficient_limit`. -/
theorem generate_polynomial_coefficients_bound_bug :
    (TrajectorySimulator.generate_polynomial_coefficients defaultSim
        (fun _ => 1)).length = 30 ∧
      (∀ x ∈ TrajectorySimulator.generate_polynomial_coefficients defaultSim
        (fun _ => 1), x = 5) ∧
      (ChaoticSysFinderConfig.default ℚ).coefficient_limit / 2 < 5 := by
  refine ⟨?_, ?_, by norm_num [ChaoticSysFinderConfig.default]⟩
  · simp [TrajectorySimulator.generate_polynomial_coefficients, defaultSim,
      TrajectorySimulator.init, ChaoticSysFinderConfig.default]
  · intro x hx
    simp only [TrajectorySimulator.generate_polynomial_coefficients,
      List.mem_map, List.mem_range] at hx
    obtain ⟨i, _, rfl⟩ := hx
    norm_num [uniformDraw, defaultSim, TrajectorySimulator.init,
      ChaoticSysFinderConfig.default]

/-- Helper for C1: the first component of `simulateLoop` — the exponent the
source will return — is the sentinel `none` in every case: at each of the two
early-termination returns and at the fall-through return after the last
iteration. -/
theorem simulateLoop_fst_eq_none (sqrt' : K → K) (sim : TrajectorySimulator K)
    (coefficients : List K) (fuel : Nat) :
    ∀ (iteration : Nat) (point perturbed : List K)
      (ref_traj pert_traj : List (List K)),
      (sim.simulateLoop sqrt' coefficients iteration fuel point perturbed
        ref_traj pert_traj).1 = none := by
  induction fuel with
  | zero => intro iteration point perturbed ref_traj pert_traj; rfl
  | succ fuel ih =>
    intro iteration point perturbed ref_traj pert_traj
    rw [TrajectorySimulator.simulateLoop]
    split_ifs <;> try rfl
    all_goals
      dsimp only
      split
      · rfl
      · exact ih _ _ _ _ _

/-- C1: for every simulator state and every randomness stream, whenever
`simulate` returns at all its exponent component is the `-inf` sentinel
(`none`) — in particular a run in which all `iterations` loop iterations
complete without either trajectory hitting a terminal point does NOT return
the result of `LyapunovCalculator` on the accumulated trajectories: the
final `return` of `simulate` is `float("-inf"), coefficients,
reference_traj` and the calculator is never invoked. -/
theorem simulate_always_returns_sentinel (sqrt' : K → K)
    (sim : TrajectorySimulator K) (pointDraw dirDraw coeffDraw : Nat → K) :
    (sim.simulate sqrt' pointDraw dirDraw coeffDraw).bind (fun r => r.1) =
      none := by
  rw [TrajectorySimulator.simulate, TrajectorySimulator.simulate_full]
  cases h : sim.create_random_points sqrt' pointDraw dirDraw with
  | none => rfl
  | some pq =>
    obtain ⟨point, perturbed⟩ := pq
    simp [simulateLoop_fst_eq_none]

/-- Unfolding lemma: the sum of squares of an empty point is `0`. -/
theorem sumSq_nil : sumSq ([] : List K) = 0 := rfl

/-- Unfolding lemma: the sum of squares of `x :: l`. -/
theorem sumSq_cons (x : K) (l : List K) : sumSq (x :: l) = x * x + sumSq l :=
  rfl

/-- Sums of squares are nonnegative. -/
theorem sumSq_nonneg (l : List K) : 0 ≤ sumSq l := by
  induction l with
  | nil => rw [sumSq_nil]
  | cons x l ih =>
    rw [sumSq_cons]
    exact add_nonneg (mul_self_nonneg x) ih

/-- Scaling every coordinate by `c` multiplies the sum of squares by
`c * c`. -/
theorem sumSq_map_mul (l : List K) (c : K) :
    sumSq (l.map (fun x => x * c)) = sumSq l * (c * c) := by
  induction l with
  | nil => simp [sumSq]
  | cons x l ih =>
    rw [List.map_cons, sumSq_cons, sumSq_cons, ih]
    ring

/-- Scaling every coordinate by `c` scales the Euclidean magnitude by
`|c|`. -/
theorem magnitude_map_mul (l : List ℝ) (c : ℝ) :
    magnitude Real.sqrt (l.map (fun x => x * c)) =
      magnitude Real.sqrt l * |c| := by
  rw [magnitude, magnitude, sumSq_map_mul, show c * c = c ^ 2 by ring,
    Real.sqrt_mul (sumSq_nonneg l), Real.sqrt_sq_eq_abs]

/-- C5 counterexample: with `convergence_threshold = 1` and
`extreme_threshold = 2`, the point `[2, 0]` has Euclidean norm exactly equal
to the extreme threshold and the point `[1, 0]` has norm exactly equal to
the convergence threshold, yet `check_convergence` returns `false` for both —
the source compares with strict `>` and `<`, so the claim's two "terminal at
the boundary" cases fail. -/
theorem check_convergence_boundary_counterexample :
    magnitude Real.sqrt [(2 : ℝ), 0] = c5Sim.extreme_threshold ∧
      TrajectorySimulator.check_convergence Real.sqrt c5Sim [(2 : ℝ), 0] =
        false ∧
      magnitude Real.sqrt [(1 : ℝ), 0] = c5Sim.convergence_threshold ∧
      TrajectorySimulator.check_convergence Real.sqrt c5Sim [(1 : ℝ), 0] =
        false := by
  have hext : c5Sim.extreme_threshold = 2 := rfl
  have hconv : c5Sim.convergence_threshold = 1 := rfl
  have h2 : magnitude Real.sqrt [(2 : ℝ), 0] = 2 := by
    rw [magnitude, show sumSq [(2 : ℝ), 0] = 2 ^ 2 by norm_num [sumSq],
      Real.sqrt_sq (by norm_num : (0 : ℝ) ≤ 2)]
  have h1 : magnitude Real.sqrt [(1 : ℝ), 0] = 1 := by
    rw [magnitude, show sumSq [(1 : ℝ), 0] = 1 by norm_num [sumSq],
      Real.sqrt_one]
  refine ⟨by rw [h2, hext], ?_, by rw [h1, hconv], ?_⟩
  · simp only [TrajectorySimulator.check_convergence, h2, hext, hconv,
      Bool.or_eq_false_iff, decide_eq_false_iff_not, not_lt]
    norm_num
  · simp only [TrajectorySimulator.check_convergence, h1, hext, hconv,
      Bool.or_eq_false_iff, decide_eq_false_iff_not, not_lt]
    norm_num

/-- C5 amended: `check_convergence` returns `false` exactly on the closed
band between the thresholds: whenever the Euclidean norm is at least
`convergence_threshold` and at most `extreme_threshold` — including both
boundary values — the point is NOT terminal.  (Strictly outside the band it
returns `true`, matching the strict comparisons of the source.) -/
theorem check_convergence_false_on_closed_band (sim : TrajectorySimulator ℝ)
    (point : List ℝ)
    (h1 : sim.convergence_threshold ≤ magnitude Real.sqrt point)
    (h2 : magnitude Real.sqrt point ≤ sim.extreme_threshold) :
    TrajectorySimulator.check_convergence Real.sqrt sim point = false := by
  simp only [TrajectorySimulator.check_convergence, Bool.or_eq_false_iff,
    decide_eq_false_iff_not, not_lt]
  exact ⟨h2, h1⟩

/-- Witness for `check_convergence_false_on_closed_band` at the point
`[3/2]`, whose norm lies strictly between the thresholds `1` and `2` of
`c5Sim`. -/
theorem check_convergence_false_on_closed_band_witness :
    TrajectorySimulator.check_convergence Real.sqrt c5Sim [(3 / 2 : ℝ)] =
      false := by
  have hm : magnitude Real.sqrt [(3 / 2 : ℝ)] = 3 / 2 := by
    rw [magnitude, show sumSq [(3 / 2 : ℝ)] = (3 / 2) ^ 2 by norm_num [sumSq],
      Real.sqrt_sq (by norm_num : (0 : ℝ) ≤ 3 / 2)]
  exact check_convergence_false_on_closed_band c5Sim [(3 / 2 : ℝ)]
    (by rw [hm]; exact (by norm_num : (1 : ℝ) ≤ 3 / 2))
    (by rw [hm]; exact (by norm_num : (3 / 2 : ℝ) ≤ 2))

/-- C10: `normalize_point` leaves a point whose norm is within the bound
`max_density` unchanged; for a point whose norm strictly exceeds the bound
it multiplies every coordinate by the same nonnegative factor
`max_density / magnitude` — a nonnegative scalar multiple of the input, so
the direction is preserved — and the rescaled point has norm exactly
`max_density`; and in all cases the result's norm never exceeds the bound.
Stated for a nonnegative density bound, as the density bounds of the data
model are a coordinate range around zero. -/
theorem normalize_point_spec (sim : TrajectorySimulator ℝ) (point : List ℝ)
    (hM : 0 ≤ sim.max_density) :
    (magnitude Real.sqrt point ≤ sim.max_density →
      sim.normalize_point Real.sqrt point = point) ∧
    (sim.max_density < magnitude Real.sqrt point →
      sim.normalize_point Real.sqrt point =
        point.map (fun x =>
          x * (sim.max_density / magnitude Real.sqrt point)) ∧
      0 ≤ sim.max_density / magnitude Real.sqrt point ∧
      magnitude Real.sqrt (sim.normalize_point Real.sqrt point) =
        sim.max_density) ∧
    magnitude Real.sqrt (sim.normalize_point Real.sqrt point) ≤
      sim.max_density := by
  by_cases h : sim.max_density < magnitude Real.sqrt point
  · have hmagpos : 0 < magnitude Real.sqrt point := lt_of_le_of_lt hM h
    have hne : magnitude Real.sqrt point ≠ 0 := ne_of_gt hmagpos
    have hfac : 0 ≤ sim.max_density / magnitude Real.sqrt point :=
      div_nonneg hM hmagpos.le
    have hnorm : sim.normalize_point Real.sqrt point =
        point.map (fun x => x * (sim.max_density / magnitude Real.sqrt point)) := by
      rw [TrajectorySimulator.normalize_point]
      rw [if_pos h]
      simp only [mul_div_assoc]
    have hmag : magnitude Real.sqrt (sim.normalize_point Real.sqrt point) =
        sim.max_density := by
      rw [hnorm, magnitude_map_mul, abs_of_nonneg hfac, mul_comm,
        div_mul_cancel₀ _ hne]
    exact ⟨fun hle => absurd h (not_lt.mpr hle),
      fun _ => ⟨hnorm, hfac, hmag⟩, hmag.le⟩
  · have hnorm : sim.normalize_point Real.sqrt point = point := by
      rw [TrajectorySimulator.normalize_point]
      rw [if_neg h]
    exact ⟨fun _ => hnorm, fun hlt => absurd hlt h,
      by rw [hnorm]; exact not_lt.mp h⟩

/-- Witness for `normalize_point_spec` at the point `[3, 0, 4]` and the
density bound `5` of `c5Sim`: the normalized point's norm stays within the
bound. -/
theorem normalize_point_spec_witness :
    magnitude Real.sqrt
        (TrajectorySimulator.normalize_point Real.sqrt c5Sim [(3 : ℝ), 0, 4]) ≤
      c5Sim.max_density :=
  (normalize_point_spec c5Sim [(3 : ℝ), 0, 4]
    (show (0 : ℝ) ≤ 5 by norm_num)).2.2

/-- Euclidean magnitudes are nonnegative. -/
theorem magnitude_nonneg (l : List ℝ) : 0 ≤ magnitude Real.sqrt l :=
  Real.sqrt_nonneg _

/-- Componentwise difference of a perturbed point and its base point: when
the lists have equal length, `(p + g d) - p = g d` in every coordinate. -/
theorem zipWith_add_sub (g : K → K) (p d : List K) (h : p.length = d.length) :
    (p.zipWith (fun x y => x + g y) d).zipWith (fun a b => a - b) p =
      d.map g := by
  induction p generalizing d with
  | nil =>
    cases d with
    | nil => rfl
    | cons y d => simp at h
  | cons x p ih =>
    cases d with
    | nil => simp at h
    | cons y d =>
      simp only [List.zipWith_cons_cons, List.map_cons]
      rw [show x + g y - x = g y by ring,
        ih d (by simpa using h)]

/-- C9: whenever `create_random_points` returns (that is, the sampled
direction did not have magnitude zero, which would raise
`ZeroDivisionError`), the two returned points are separated by exactly
`initial_distance` in Euclidean norm: the perturbed point is the reference
point plus the sampled direction scaled by `initial_distance / magnitude`.
Stated for a nonnegative `initial_distance`, which the data model requires
to be positive. -/
theorem create_random_points_separation (sim : TrajectorySimulator ℝ)
    (pointDraw dirDraw : Nat → ℝ) (hdist : 0 ≤ sim.lyap_norm_dist)
    (point perturbed : List ℝ)
    (h : sim.create_random_points Real.sqrt pointDraw dirDraw =
      some (point, perturbed)) :
    magnitude Real.sqrt (perturbed.zipWith (fun a b => a - b) point) =
      sim.lyap_norm_dist := by
  rw [TrajectorySimulator.create_random_points] at h
  set pt := (List.range sim.dimensions.toNat).map
    (fun i => uniformDraw (sim.min_density / 2) (sim.max_density / 2)
      (pointDraw i)) with hpt
  set dir := (List.range sim.dimensions.toNat).map
    (fun i => uniformDraw (-1) 1 (dirDraw i)) with hdir
  by_cases hmag : magnitude Real.sqrt dir = 0
  · rw [if_pos hmag] at h
    exact absurd h (by simp)
  · rw [if_neg hmag] at h
    simp only [Option.some.injEq, Prod.mk.injEq] at h
    obtain ⟨rfl, rfl⟩ := h
    have hlen : pt.length = dir.length := by
      rw [hpt, hdir, List.length_map, List.length_map]
    rw [zipWith_add_sub
      (fun y => y * sim.lyap_norm_dist / magnitude Real.sqrt dir) pt dir hlen]
    have hfac : (fun y : ℝ => y * sim.lyap_norm_dist / magnitude Real.sqrt dir)
        = fun y : ℝ => y * (sim.lyap_norm_dist / magnitude Real.sqrt dir) := by
      funext y
      rw [mul_div_assoc]
    rw [hfac, magnitude_map_mul,
      abs_of_nonneg (div_nonneg hdist (magnitude_nonneg dir)),
      mul_comm, div_mul_cancel₀ _ hmag]

/-- Witness for `create_random_points_separation`: with both draw streams
constantly `1`, `c5Sim` (two dimensions, `initial_distance = 1e-8`) samples
direction `[1, 1]`, the call returns, and the two returned points are at
Euclidean distance exactly `initial_distance`. -/
theorem create_random_points_separation_witness :
    ∃ pt pb, TrajectorySimulator.create_random_points Real.sqrt c5Sim
        (fun _ => 1) (fun _ => 1) = some (pt, pb) ∧
      magnitude Real.sqrt (pb.zipWith (fun a b => a - b) pt) =
        c5Sim.lyap_norm_dist := by
  have hdirlist : (List.range c5Sim.dimensions.toNat).map
      (fun i => uniformDraw (-1 : ℝ) 1 ((fun _ : Nat => (1 : ℝ)) i)) =
      [1, 1] := by
    rw [show List.range c5Sim.dimensions.toNat = [0, 1] by decide]
    norm_num [uniformDraw]
  have hne : magnitude Real.sqrt ((List.range c5Sim.dimensions.toNat).map
      (fun i => uniformDraw (-1 : ℝ) 1 ((fun _ : Nat => (1 : ℝ)) i))) ≠ 0 := by
    rw [hdirlist, magnitude, show sumSq [(1 : ℝ), 1] = 2 by norm_num [sumSq]]
    exact ne_of_gt (Real.sqrt_pos.mpr (by norm_num))
  obtain ⟨pt, pb, h⟩ : ∃ pt pb,
      TrajectorySimulator.create_random_points Real.sqrt c5Sim
        (fun _ => 1) (fun _ => 1) = some (pt, pb) := by
    rw [TrajectorySimulator.create_random_points, if_neg hne]
    exact ⟨_, _, rfl⟩
  exact ⟨pt, pb, h, create_random_points_separation c5Sim (fun _ => 1)
    (fun _ => 1) (show (0 : ℝ) ≤ 1 / 10 ^ 8 by norm_num) pt pb h⟩

/-- Accumulating loop of the calculator, in closed form: folding the
conditional accumulator over any index list adds the sum of `g` over the
indices satisfying `P` and counts them. -/
theorem foldl_accum_filter (P : Nat → Prop) [DecidablePred P] (g : Nat → K)
    (l : List Nat) :
    ∀ (s : K) (c : Nat),
      l.foldl (fun acc i => if P i then (acc.1 + g i, acc.2 + 1) else acc)
        (s, c) =
      (s + ((l.filter (fun i => decide (P i))).map g).sum,
        c + (l.filter (fun i => decide (P i))).length) := by
  induction l with
  | nil => intro s c; simp
  | cons i l ih =>
    intro s c
    by_cases h : P i
    · rw [List.foldl_cons, if_pos h, ih,
        List.filter_cons_of_pos (by simpa using h), List.map_cons,
        List.sum_cons, List.length_cons]
      refine Prod.ext ?_ ?_
      · dsimp only
        ring
      · dsimp only
        omega
    · rw [List.foldl_cons, if_neg h, ih,
        List.filter_cons_of_neg (by simpa using h)]

/-- C6: `LyapunovCalculator.calculate` coincides with the specification-side
`calculateSpec` on every pair of equal-length trajectories: it starts at
`skip = min(transient_skip_steps, length/4)`, accumulates
`ln(s_i / initial_distance)` exactly over the indices whose separation
satisfies `0 < s_i < extreme_threshold`, returns the sentinel when no index
qualifies, and otherwise the accumulated sum divided by
`validCount × renorm_steps`. -/
theorem calculate_eq_calculateSpec (sqrt' log' : K → K)
    (calculator : LyapunovCalculator K)
    (reference_traj perturbed_traj : List (List K))
    (hlen : reference_traj.length = perturbed_traj.length) :
    calculator.calculate sqrt' log' reference_traj perturbed_traj =
      calculator.calculateSpec sqrt' log' reference_traj perturbed_traj := by
  rw [LyapunovCalculator.calculate, LyapunovCalculator.calculateSpec]
  dsimp only
  rw [foldl_accum_filter
    (fun i => 0 < separationAt sqrt' reference_traj perturbed_traj i ∧
      separationAt sqrt' reference_traj perturbed_traj i <
        calculator.extreme_threshold)
    (fun i => log' (separationAt sqrt' reference_traj perturbed_traj i /
      calculator.lyap_norm_dist))]
  simp only [zero_add, Bool.decide_and, List.length_eq_zero]

/-- Witness for `calculate_eq_calculateSpec` at a concrete pair of
equal-length one-point trajectories over `ℚ`. -/
theorem calculate_eq_calculateSpec_witness :
    LyapunovCalculator.calculate id id exampleCalc [[(1 : ℚ)]] [[(0 : ℚ)]] =
      LyapunovCalculator.calculateSpec id id exampleCalc [[(1 : ℚ)]]
        [[(0 : ℚ)]] :=
  calculate_eq_calculateSpec id id exampleCalc [[(1 : ℚ)]] [[(0 : ℚ)]] rfl

/-- Python's `min` raises (`none`) exactly on the empty list. -/
theorem listMin_eq_none_iff (l : List K) : listMin l = none ↔ l = [] := by
  cases l with
  | nil => simp [listMin]
  | cons x xs => simp [listMin]

/-- C7: `is_system_worthy` in the source's three-return form.  First, an
exponent strictly below `lyapunov_threshold` is rejected — so an exponent
exactly equal to the threshold passes this check.  Second, with the threshold
check passed, fewer than `max_systems` stored systems means acceptance.
Third, at capacity the exponent must be strictly greater than the minimum
stored exponent — an exact tie with the minimum is rejected. -/
theorem is_system_worthy_spec (f : ChaoticSystemFinder K) (lyapunov : K) :
    (lyapunov < f.config.lyap_config.lyapunov_threshold →
      f.is_system_worthy lyapunov = some false) ∧
    (f.config.lyap_config.lyapunov_threshold ≤ lyapunov →
      f.best_systems.length < f.config.max_systems →
      f.is_system_worthy lyapunov = some true) ∧
    (∀ m, f.config.lyap_config.lyapunov_threshold ≤ lyapunov →
      f.config.max_systems ≤ f.best_systems.length →
      listMin (f.best_systems.map (fun system => system.lyapunov)) = some m →
      (f.is_system_worthy lyapunov = some true ↔ m < lyapunov)) := by
  refine ⟨?_, ?_, ?_⟩
  · intro h
    rw [ChaoticSystemFinder.is_system_worthy, if_pos h]
  · intro h1 h2
    rw [ChaoticSystemFinder.is_system_worthy, if_neg (not_lt.mpr h1),
      if_pos h2]
  · intro m h1 h2 hm
    rw [ChaoticSystemFinder.is_system_worthy, if_neg (not_lt.mpr h1),
      if_neg (not_lt.mpr h2), hm]
    simp only [Option.some.injEq, decide_eq_true_eq]

/-- Witness for `is_system_worthy_spec` at the spec's admission-boundary
example: `max_systems = 2`, threshold `0.05`, stored exponents
`[0.5, 0.3]`; the candidate `0.4` is accepted because `0.4 > min = 0.3`. -/
theorem is_system_worthy_spec_witness :
    ChaoticSystemFinder.is_system_worthy exampleFinder (2 / 5 : ℚ) =
      some true :=
  ((is_system_worthy_spec exampleFinder (2 / 5 : ℚ)).2.2 (3 / 10)
    (by norm_num [exampleFinder, ChaoticSysFinderConfig.make,
      LyapConfig.default])
    (by norm_num [exampleFinder, ChaoticSysFinderConfig.make])
    (by norm_num [exampleFinder, listMin])).mpr (by norm_num)

/-- Extracting the threshold fact from a successful worthiness check: the
source returns `True` only after the `lyapunov < threshold` test failed. -/
theorem is_system_worthy_true_le (f : ChaoticSystemFinder K) (lyapunov : K)
    (h : f.is_system_worthy lyapunov = some true) :
    f.config.lyap_config.lyapunov_threshold ≤ lyapunov := by
  by_contra hlt
  rw [ChaoticSystemFinder.is_system_worthy, if_pos (not_le.mp hlt)] at h
  simp at h

/-- Sorting by descending exponent really sorts: the result of
`sortByLyapunovDesc` is `lyapGE`-sorted. -/
theorem sorted_sortByLyapunovDesc (l : List (AttractorSystem K)) :
    List.Sorted lyapGE (sortByLyapunovDesc l) :=
  List.sorted_insertionSort lyapGE l

/-- Sorting by descending exponent is a permutation of its input. -/
theorem perm_sortByLyapunovDesc (l : List (AttractorSystem K)) :
    (sortByLyapunovDesc l).Perm l :=
  List.perm_insertionSort lyapGE l

/-- C8: `add_system` preserves the BestSet invariant and evicts precisely
the lowest-ranked member, and nothing else, when the cap would be exceeded.
From any state satisfying the invariant (with at least one slot configured),
the call returns a state that again holds at most `max_systems` systems,
sorted by exponent descending, all at or above the threshold; and the stored
list either is untouched (rejection), or is exactly the old members plus the
new candidate (as a permutation — re-sorted) when the cap is not exceeded,
or — when the insertion would exceed the cap — is the old members plus the
new candidate minus exactly one dropped member whose exponent is a minimum
of the resulting set, leaving exactly `max_systems` members. -/
theorem add_system_preserves_invariant (f : ChaoticSystemFinder K)
    (coefficients : List K) (lyapunov : K) (points : List (List K))
    (timestamp : String) (hInv : BestSetInv f)
    (hmax : 1 ≤ f.config.max_systems) :
    ∃ f', f.add_system coefficients lyapunov points timestamp = some f' ∧
      BestSetInv f' ∧
      (f'.best_systems = f.best_systems ∨
        (f'.best_systems.Perm (f.best_systems ++
            [f.newCandidate coefficients lyapunov points timestamp]) ∧
          f'.best_systems.length = f.best_systems.length + 1) ∨
        ∃ dropped,
          (f'.best_systems ++ [dropped]).Perm (f.best_systems ++
            [f.newCandidate coefficients lyapunov points timestamp]) ∧
          (∀ s ∈ f'.best_systems, dropped.lyapunov ≤ s.lyapunov) ∧
          f'.best_systems.length = f.config.max_systems ∧
          f.best_systems.length = f.config.max_systems) := by
  rw [ChaoticSystemFinder.add_system]
  cases hw : f.is_system_worthy lyapunov with
  | none =>
    exfalso
    rw [ChaoticSystemFinder.is_system_worthy] at hw
    by_cases h1 : lyapunov < f.config.lyap_config.lyapunov_threshold
    · rw [if_pos h1] at hw
      exact Option.noConfusion hw
    · rw [if_neg h1] at hw
      by_cases h2 : f.best_systems.length < f.config.max_systems
      · rw [if_pos h2] at hw
        exact Option.noConfusion hw
      · rw [if_neg h2] at hw
        cases hmin : listMin (f.best_systems.map (fun system => system.lyapunov)) with
        | some m => rw [hmin] at hw; exact Option.noConfusion hw
        | none =>
          have : f.best_systems.map (fun system => system.lyapunov) = [] :=
            (listMin_eq_none_iff _).mp hmin
          have hempty : f.best_systems = [] := by
            cases hbs : f.best_systems with
            | nil => rfl
            | cons a l => rw [hbs] at this; exact List.noConfusion this
          rw [hempty] at h2
          exact h2 (lt_of_lt_of_le Nat.zero_lt_one hmax)
  | some b =>
    cases b with
    | false => exact ⟨f, rfl, hInv, Or.inl rfl⟩
    | true =>
      have hthr : f.config.lyap_config.lyapunov_threshold ≤ lyapunov :=
        is_system_worthy_true_le f lyapunov hw
      refine ⟨_, rfl, ?_, ?_⟩
      all_goals
        dsimp only
        set new_system : AttractorSystem K :=
          f.newCandidate coefficients lyapunov points timestamp with hnew
        set sorted := sortByLyapunovDesc (f.best_systems ++ [new_system])
          with hsorted
        have hperm : sorted.Perm (f.best_systems ++ [new_system]) :=
          perm_sortByLyapunovDesc _
        have hslen : sorted.length = f.best_systems.length + 1 := by
          rw [hperm.length_eq, List.length_append, List.length_singleton]
        have hssorted : List.Sorted lyapGE sorted :=
          sorted_sortByLyapunovDesc _
        have hsmem : ∀ s ∈ sorted,
            f.config.lyap_config.lyapunov_threshold ≤ s.lyapunov := by
          intro s hs
          rcases List.mem_append.mp (hperm.mem_iff.mp hs) with h | h
          · exact hInv.2.2 s h
          · rw [List.mem_singleton] at h
            rw [h, hnew]
            exact hthr
      · by_cases hover : f.config.max_systems < sorted.length
        · rw [if_pos hover]
          refine ⟨?_, ?_, ?_⟩
          · have h1 := hInv.1
            dsimp only
            rw [List.length_dropLast, hslen]
            omega
          · exact hssorted.sublist (List.dropLast_sublist sorted)
          · intro s hs
            exact hsmem s ((List.dropLast_sublist sorted).subset hs)
        · rw [if_neg hover]
          exact ⟨not_lt.mp hover, hssorted, hsmem⟩
      · by_cases hover : f.config.max_systems < sorted.length
        · rw [if_pos hover]
          right
          right
          have h1 := hInv.1
          have hover' : f.config.max_systems < f.best_systems.length + 1 := by
            rw [← hslen]
            exact hover
          have hne' : sorted ≠ [] := by
            intro hcontra
            rw [hcontra] at hslen
            simp at hslen
          have hdrop : sorted.dropLast ++ [sorted.getLast hne'] = sorted :=
            List.dropLast_append_getLast hne'
          refine ⟨sorted.getLast hne', ?_, ?_, ?_, ?_⟩
          · show (sorted.dropLast ++ [sorted.getLast hne']).Perm
              (f.best_systems ++ [new_system])
            rw [hdrop]
            exact hperm
          · intro s hs
            have hp : List.Pairwise lyapGE
                (sorted.dropLast ++ [sorted.getLast hne']) := by
              rw [hdrop]
              exact hssorted
            exact (List.pairwise_append.mp hp).2.2 s hs _
              (List.mem_singleton_self _)
          · show (sorted.dropLast).length = f.config.max_systems
            rw [List.length_dropLast, hslen]
            omega
          · omega
        · rw [if_neg hover]
          right
          left
          exact ⟨hperm, hslen⟩

/-- Witness for `add_system_preserves_invariant` at the spec's example state
(`exampleFinder`, already full with exponents `[0.5, 0.3]`) and the admitted
candidate `0.4`. -/
theorem add_system_preserves_invariant_witness :
    ∃ f', ChaoticSystemFinder.add_system exampleFinder [] (2 / 5 : ℚ) [] "t" =
        some f' ∧ BestSetInv f' ∧
      (f'.best_systems = exampleFinder.best_systems ∨
        (f'.best_systems.Perm (exampleFinder.best_systems ++
            [ChaoticSystemFinder.newCandidate exampleFinder []
              (2 / 5 : ℚ) [] "t"]) ∧
          f'.best_systems.length =
            exampleFinder.best_systems.length + 1) ∨
        ∃ dropped,
          (f'.best_systems ++ [dropped]).Perm
            (exampleFinder.best_systems ++
              [ChaoticSystemFinder.newCandidate exampleFinder []
                (2 / 5 : ℚ) [] "t"]) ∧
          (∀ s ∈ f'.best_systems, dropped.lyapunov ≤ s.lyapunov) ∧
          f'.best_systems.length = exampleFinder.config.max_systems ∧
          exampleFinder.best_systems.length =
            exampleFinder.config.max_systems) :=
  add_system_preserves_invariant exampleFinder [] (2 / 5 : ℚ) [] "t"
    ⟨by norm_num [exampleFinder, ChaoticSysFinderConfig.make],
     by simp [exampleFinder, List.Sorted, lyapGE]; norm_num,
     by intro s hs
        simp [exampleFinder, ChaoticSysFinderConfig.make,
          LyapConfig.default] at hs ⊢
        rcases hs with h | h <;> rw [h] <;> norm_num⟩
    (by norm_num [exampleFinder, ChaoticSysFinderConfig.make])

end LyapunovAttractors
